import Mathlib

/-
Verification of the Auto-Claude usage accounting and process orchestration core.

This file gives a shallow embedding of the two subsystems:
  * the local usage calculator and the usage monitor
    (src/auto-claude-ui/src/main/claude-profile/local-usage-calculator.ts,
     src/auto-claude-ui/src/main/claude-profile/usage-monitor.ts), and
  * the agent process orchestrator
    (src/auto-claude-ui/src/main/agent/agent-manager.ts),
and proves the specified properties about them.

JavaScript numbers are modelled as rationals (the verified properties are
structural: branch conditions, linear arithmetic and integer rounding; no
property here depends on binary floating-point rounding).  JavaScript
`Math.round` is `round` on rationals (both are floor of x + 1/2).  Dates are
modelled by their millisecond value; `new Date(ms)` is invalid (getTime NaN)
exactly when |ms| exceeds 8.64e15, which the embedding mirrors.  Host ISO-8601
date parsing (`new Date(string)`) is external to the repository and is taken as
a parameter returning the parsed millisecond value, or none for an invalid
date.
-/

namespace AutoClaude

/-! ## Pricing and cost (local-usage-calculator.ts) -/

/-- Pricing per million tokens, mirroring the `SONNET_PRICING` constant. -/
structure Pricing where
  inputPerMillion : ℚ
  outputPerMillion : ℚ
  cacheReadPerMillion : ℚ
  cacheWritePerMillion : ℚ

/-- `SONNET_PRICING` from local-usage-calculator.ts: 3.0 / 15.0 / 0.30 / 3.75
dollars per million tokens. -/
def SONNET_PRICING : Pricing :=
  { inputPerMillion := 3
    outputPerMillion := 15
    cacheReadPerMillion := 3 / 10
    cacheWritePerMillion := 15 / 4 }

/-- `calculateCost` from local-usage-calculator.ts. -/
def calculateCost (inputTokens outputTokens cacheReadTokens cacheWriteTokens : ℚ) : ℚ :=
  let inputCost := inputTokens / 1000000 * SONNET_PRICING.inputPerMillion
  let outputCost := outputTokens / 1000000 * SONNET_PRICING.outputPerMillion
  let cacheReadCost := cacheReadTokens / 1000000 * SONNET_PRICING.cacheReadPerMillion
  let cacheWriteCost := cacheWriteTokens / 1000000 * SONNET_PRICING.cacheWritePerMillion
  inputCost + outputCost + cacheReadCost + cacheWriteCost

/-- `ESTIMATED_COST_LIMITS.sessionCostUSD` (0.85 dollars per 5-hour window). -/
def ESTIMATED_SESSION_COST_LIMIT : ℚ := 17 / 20

/-- `ESTIMATED_COST_LIMITS.weeklyCostUSD` (28 dollars per week). -/
def ESTIMATED_WEEKLY_COST_LIMIT : ℚ := 28

/-! ## Published percentages -/

/-- The local-estimation percentage from `calculateLocalUsage`:
`Math.min(100, Math.round((costUSD / limitUSD) * 100))`. -/
def localPercent (costUSD limitUSD : ℚ) : ℤ :=
  min 100 (round (costUSD / limitUSD * 100))

/-- The API-path percentage from `UsageMonitor.fetchUsageViaAPI`:
`Math.round((utilization || 0) * 100)` where the utilization field may be
absent. -/
def apiPercent (utilization : Option ℚ) : ℤ :=
  round (utilization.getD 0 * 100)

/-! ## Events and per-event aggregation (local-usage-calculator.ts) -/

/-- `TokenUsage` from local-usage-calculator.ts; every field is optional in the
JSON. -/
structure TokenUsage where
  input_tokens : Option ℚ := none
  output_tokens : Option ℚ := none
  cache_creation_input_tokens : Option ℚ := none
  cache_read_input_tokens : Option ℚ := none
deriving DecidableEq

/-- JavaScript `x || 0` on an optional number: an absent or zero (falsy) value
becomes 0. -/
def orZero (x : Option ℚ) : ℚ := x.getD 0

/-- A timestamp-like JSON value: the `timestamp` / `time` / `createdAt` /
`created_at` fields each hold a string or a number. -/
inductive TSValue where
  | str (s : String)
  | num (q : ℚ)
deriving DecidableEq

/-- The `message` object of an event (only the fields the calculator reads). -/
structure MessageBody where
  role : Option String := none
  usage : Option TokenUsage := none
deriving DecidableEq

/-- `ClaudeEvent` from local-usage-calculator.ts.  `isSidechain` is an optional
boolean in the JSON; an absent field is falsy, so it is modelled as a `Bool`
defaulting to `false`. -/
structure ClaudeEvent where
  timestamp : Option TSValue := none
  time : Option TSValue := none
  createdAt : Option TSValue := none
  created_at : Option TSValue := none
  message : Option MessageBody := none
  usage : Option TokenUsage := none
  costUSD : Option ℚ := none
  isSidechain : Bool := false
deriving DecidableEq

/-- `extractUsage` from local-usage-calculator.ts: sidechain events yield
nothing; otherwise `message.usage` is preferred over the top-level `usage`. -/
def extractUsage (event : ClaudeEvent) : Option TokenUsage :=
  if event.isSidechain then none
  else
    match event.message.bind MessageBody.usage with
    | some u => some u
    | none => event.usage

/-- `AggregatedUsage` from local-usage-calculator.ts.  The oldest/newest event
timestamps are millisecond values (`none` plays the role of `null`). -/
structure AggregatedUsage where
  inputTokens : ℚ
  outputTokens : ℚ
  cacheCreationTokens : ℚ
  cacheReadTokens : ℚ
  totalTokens : ℚ
  costUSD : ℚ
  eventCount : ℕ
  oldestEvent : Option ℚ
  newestEvent : Option ℚ
deriving DecidableEq

/-- `createEmptyAggregation` from local-usage-calculator.ts. -/
def createEmptyAggregation : AggregatedUsage :=
  { inputTokens := 0
    outputTokens := 0
    cacheCreationTokens := 0
    cacheReadTokens := 0
    totalTokens := 0
    costUSD := 0
    eventCount := 0
    oldestEvent := none
    newestEvent := none }

/-- `addToAggregation` from local-usage-calculator.ts (the current revision,
which prices all four token kinds).  The JavaScript guard
`if (costUSD && costUSD > 0)` holds exactly when the optional cost is present
and strictly positive; otherwise the cost is computed from the token counts
(with the cache-creation count passed as the cache-write argument, as in the
call `calculateCost(inputTokens, outputTokens, cacheReadTokens,
cacheCreationTokens)`). -/
def addToAggregation (agg : AggregatedUsage) (usage : TokenUsage) (timestamp : ℚ)
    (costUSD : Option ℚ) : AggregatedUsage :=
  let inputTokens := orZero usage.input_tokens
  let outputTokens := orZero usage.output_tokens
  let cacheReadTokens := orZero usage.cache_read_input_tokens
  let cacheCreationTokens := orZero usage.cache_creation_input_tokens
  { inputTokens := agg.inputTokens + inputTokens
    outputTokens := agg.outputTokens + outputTokens
    cacheCreationTokens := agg.cacheCreationTokens + cacheCreationTokens
    cacheReadTokens := agg.cacheReadTokens + cacheReadTokens
    totalTokens := agg.totalTokens +
      (inputTokens + outputTokens + cacheCreationTokens + cacheReadTokens)
    costUSD := agg.costUSD +
      (match costUSD with
       | some c =>
         if 0 < c then c
         else calculateCost inputTokens outputTokens cacheReadTokens cacheCreationTokens
       | none => calculateCost inputTokens outputTokens cacheReadTokens cacheCreationTokens)
    eventCount := agg.eventCount + 1
    oldestEvent :=
      match agg.oldestEvent with
      | none => some timestamp
      | some o => if timestamp < o then some timestamp else some o
    newestEvent :=
      match agg.newestEvent with
      | none => some timestamp
      | some n => if n < timestamp then some timestamp else some n }

/-! ## Timestamp parsing (local-usage-calculator.ts, calculateLocalUsage) -/

/-- JavaScript truthiness of a timestamp candidate: the empty string and the
number 0 are falsy. -/
def tsTruthy : TSValue → Bool
  | .str s => if s = "" then false else true
  | .num q => if q = 0 then false else true

/-- Keep an optional candidate only when it is present and truthy. -/
def truthyOpt : Option TSValue → Option TSValue
  | some v => if tsTruthy v then some v else none
  | none => none

/-- The candidate chain
`event.timestamp || event.time || event.createdAt || event.created_at`:
the first truthy value wins (a trailing falsy value is itself rejected by the
`if (tsValue)` guard that follows, so it is folded into `none` here). -/
def tsValueOf (event : ClaudeEvent) : Option TSValue :=
  (truthyOpt event.timestamp).orElse fun _ =>
    (truthyOpt event.time).orElse fun _ =>
      (truthyOpt event.createdAt).orElse fun _ =>
        truthyOpt event.created_at

/-- Largest magnitude of a valid JavaScript Date in milliseconds (8.64e15). -/
def MAX_DATE_MS : ℚ := 8640000000000000

/-- `new Date(ms)` followed by the `isNaN(timestamp.getTime())` check: the
date is valid exactly when |ms| is at most 8.64e15. -/
def validDate (ms : ℚ) : Option ℚ :=
  if -MAX_DATE_MS ≤ ms ∧ ms ≤ MAX_DATE_MS then some ms else none

/-- The numeric branch of the timestamp parser in `calculateLocalUsage`:
`if (tsValue < 4102444800000) timestamp = new Date(tsValue < 4102444800 ?
tsValue * 1000 : tsValue); else timestamp = new Date(tsValue)`.  The result is
the millisecond value handed to `new Date`. -/
def parseNumericTimestampMs (tsValue : ℚ) : ℚ :=
  if tsValue < 4102444800000 then
    (if tsValue < 4102444800 then tsValue * 1000 else tsValue)
  else tsValue

/-- The whole timestamp-parsing block of `calculateLocalUsage`.  `parseISO`
stands for the host's `new Date(string)` (returning the millisecond value, or
`none` for an invalid date); it is external to the repository. -/
def parseTimestamp (parseISO : String → Option ℚ) (event : ClaudeEvent) : Option ℚ :=
  match tsValueOf event with
  | none => none
  | some (.str s) => (parseISO s).bind validDate
  | some (.num q) => validDate (parseNumericTimestampMs q)

/-! ## The per-event processing step of `calculateLocalUsage` -/

/-- The mutable state of the event loop in `calculateLocalUsage`: the two
windows plus the diagnostic counters. -/
structure ProcessState where
  sessionUsage : AggregatedUsage
  weeklyUsage : AggregatedUsage
  totalEventsProcessed : ℕ
  eventsSkippedOld : ℕ
  eventsSkippedNoUsage : ℕ
  eventsSkippedNoTimestamp : ℕ
deriving DecidableEq

/-- The `actualUsage` value built in the loop body: every field defaulted with
`|| 0`. -/
def actualUsageOf (usage : TokenUsage) : TokenUsage :=
  { input_tokens := some (orZero usage.input_tokens)
    output_tokens := some (orZero usage.output_tokens)
    cache_read_input_tokens := some (orZero usage.cache_read_input_tokens)
    cache_creation_input_tokens := some (orZero usage.cache_creation_input_tokens) }

/-- `totalTokensInEvent` from the loop body. -/
def totalTokensInEvent (usage : TokenUsage) : ℚ :=
  orZero usage.input_tokens + orZero usage.output_tokens +
    orZero usage.cache_read_input_tokens + orZero usage.cache_creation_input_tokens

/-- One iteration of the event loop of `calculateLocalUsage` on a parsed JSONL
event: timestamp parsing, strict weekly-window filtering, usage extraction,
the zero-token guard, and aggregation into the weekly and (conditionally)
session windows. -/
def processEvent (parseISO : String → Option ℚ) (sessionCutoff weeklyCutoff : ℚ)
    (st : ProcessState) (event : ClaudeEvent) : ProcessState :=
  let st := { st with totalEventsProcessed := st.totalEventsProcessed + 1 }
  match parseTimestamp parseISO event with
  | none => { st with eventsSkippedNoTimestamp := st.eventsSkippedNoTimestamp + 1 }
  | some timestamp =>
    if timestamp < weeklyCutoff then
      { st with eventsSkippedOld := st.eventsSkippedOld + 1 }
    else
      match extractUsage event with
      | none => { st with eventsSkippedNoUsage := st.eventsSkippedNoUsage + 1 }
      | some usage =>
        if totalTokensInEvent usage = 0 then st
        else
          let st := { st with
            weeklyUsage :=
              addToAggregation st.weeklyUsage (actualUsageOf usage) timestamp event.costUSD }
          if sessionCutoff ≤ timestamp then
            { st with
              sessionUsage :=
                addToAggregation st.sessionUsage (actualUsageOf usage) timestamp event.costUSD }
          else st

/-- Folding the per-event step over a list of events (the loop over all lines
of all JSONL files). -/
def processEvents (parseISO : String → Option ℚ) (sessionCutoff weeklyCutoff : ℚ)
    (st : ProcessState) (events : List ClaudeEvent) : ProcessState :=
  events.foldl (processEvent parseISO sessionCutoff weeklyCutoff) st

/-- Total token count of an event as the loop computes it: the defaulted sum
over the extracted usage, and zero when no usage is extracted. -/
def eventTotalTokens (event : ClaudeEvent) : ℚ :=
  match extractUsage event with
  | some usage => totalTokensInEvent usage
  | none => 0

/-! ## Model catalogue (apps/frontend/src/shared/constants/models.ts) -/

/-- `getModelProvider` from models.ts: look the model up in `AVAILABLE_MODELS`
and default to the anthropic provider.  The two Z.ai entries are
`glm-4.7` and `glm-4.5-air`. -/
def getModelProvider (model : String) : String :=
  if model = "glm-4.7" ∨ model = "glm-4.5-air" then "zai" else "anthropic"

/-- `isGLMModel` from models.ts. -/
def isGLMModel (model : String) : Bool :=
  getModelProvider model = "zai"

/-! ## Agent process orchestrator (agent-manager.ts) -/

/-- `TaskExecutionOptions` from agent/types (the fields agent-manager.ts
reads). -/
structure TaskExecutionOptions where
  baseBranch : Option String := none
  skipQA : Bool := false
deriving DecidableEq

/-- Per-phase model map from `SpecCreationMetadata.phaseModels` (and
`phaseThinking`). -/
structure PhaseMap where
  spec : String
  planning : String
  coding : String
  qa : String
deriving DecidableEq

/-- `SpecCreationMetadata` (the fields agent-manager.ts reads). -/
structure SpecCreationMetadata where
  isAutoProfile : Bool := false
  phaseModels : Option PhaseMap := none
  phaseThinking : Option PhaseMap := none
  model : Option String := none
  thinkingLevel : Option String := none
  requireReviewBeforeCoding : Bool := false
deriving DecidableEq

/-- One entry of `AgentManager.taskExecutionContext`. -/
structure TaskContext where
  projectPath : String
  specId : String
  options : TaskExecutionOptions := {}
  isSpecCreation : Bool := false
  taskDescription : Option String := none
  specDir : Option String := none
  metadata : Option SpecCreationMetadata := none
  swapCount : ℕ
deriving DecidableEq

/-- The `taskExecutionContext` map, keyed by task id. -/
def ContextMap : Type := String → Option TaskContext

/-- `AgentManager.validateGLMAuth`: collect the models to check (all four
phase models for an auto profile with a phase map, otherwise the single
configured model) and fail when any is a GLM model while no Z.ai key is
configured. -/
def validateGLMAuth (hasZaiKey : Bool) (metadata : Option SpecCreationMetadata) :
    Option String :=
  let modelsToCheck : List String :=
    match metadata with
    | some m =>
      if m.isAutoProfile then
        match m.phaseModels with
        | some pm => [pm.spec, pm.planning, pm.coding, pm.qa]
        | none =>
          match m.model with
          | some mo => [mo]
          | none => []
      else
        match m.model with
        | some mo => [mo]
        | none => []
    | none => []
  let glmModels := modelsToCheck.filter isGLMModel
  if glmModels ≠ [] ∧ hasZaiKey = false then
    some ("Z.ai API key required for GLM models (" ++
      String.intercalate ", " glmModels.dedup ++
      "). Please configure your Z.ai API key in Settings > Integrations.")
  else none

/-- The external conditions a start operation consults: the profile manager's
authentication state, the Z.ai key, the configured auto-build source path and
the existence of the two runner scripts on disk. -/
structure StartEnv where
  hasValidAuth : Bool
  hasZaiKey : Bool
  autoBuildSourcePath : Option String
  specRunnerExists : Bool
  runScriptExists : Bool
deriving DecidableEq

/-- Result of a start operation: either an `error` event with its message, or
a spawned worker of the given process kind. -/
inductive StartOutcome where
  | errored (message : String)
  | spawned (processKind : String)
deriving DecidableEq

/-- The auth pre-flight error message shared by `startSpecCreation` and
`startTaskExecution`. -/
def authErrorMessage : String :=
  "Claude authentication required. Please authenticate in Settings > Claude Profiles before starting tasks."

/-- Error message when the auto-build source path is not configured. -/
def noSourceMessage : String :=
  "Auto-build source path not found. Please configure it in App Settings."

/-- `AgentManager.storeTaskContext`: record a context under the task id,
preserving the swap counter of an existing entry. -/
def storeTaskContext (contexts : ContextMap) (taskId projectPath specId : String)
    (options : TaskExecutionOptions) (isSpecCreation : Bool)
    (taskDescription specDir : Option String) (metadata : Option SpecCreationMetadata) :
    ContextMap :=
  let swapCount := match contexts taskId with
    | some existing => existing.swapCount
    | none => 0
  fun t =>
    if t = taskId then
      some { projectPath := projectPath
             specId := specId
             options := options
             isSpecCreation := isSpecCreation
             taskDescription := taskDescription
             specDir := specDir
             metadata := metadata
             swapCount := swapCount }
    else contexts t

/-- `AgentManager.startSpecCreation` (command-line argument construction has
no observable effect beyond the spawn and is omitted): auth pre-flight, GLM
key pre-flight, source-path and runner-script checks, then context storage
and a spawn of kind task-execution. -/
def startSpecCreation (env : StartEnv) (contexts : ContextMap)
    (taskId projectPath taskDescription : String) (specDir : Option String)
    (metadata : Option SpecCreationMetadata) : StartOutcome × ContextMap :=
  if env.hasValidAuth = false then (.errored authErrorMessage, contexts)
  else
    match validateGLMAuth env.hasZaiKey metadata with
    | some glmAuthError => (.errored glmAuthError, contexts)
    | none =>
      match env.autoBuildSourcePath with
      | none => (.errored noSourceMessage, contexts)
      | some autoBuildSource =>
        if env.specRunnerExists = false then
          (.errored ("Spec runner not found at: " ++ autoBuildSource ++
            "/runners/spec_runner.py"), contexts)
        else
          (.spawned "task-execution",
           storeTaskContext contexts taskId projectPath "" {} true
             (some taskDescription) specDir metadata)

/-- `AgentManager.startTaskExecution`: auth pre-flight, source-path and run.py
checks, then context storage and a spawn of kind task-execution. -/
def startTaskExecution (env : StartEnv) (contexts : ContextMap)
    (taskId projectPath specId : String) (options : TaskExecutionOptions) :
    StartOutcome × ContextMap :=
  if env.hasValidAuth = false then (.errored authErrorMessage, contexts)
  else
    match env.autoBuildSourcePath with
    | none => (.errored noSourceMessage, contexts)
    | some autoBuildSource =>
      if env.runScriptExists = false then
        (.errored ("Run script not found at: " ++ autoBuildSource ++ "/run.py"), contexts)
      else
        (.spawned "task-execution",
         storeTaskContext contexts taskId projectPath specId options false none none none)

/-- `AgentManager.startQAProcess`: source-path and run.py checks, then a spawn
of kind qa-process.  The source performs no authentication pre-flight here and
stores no context. -/
def startQAProcess (env : StartEnv) (contexts : ContextMap)
    (taskId projectPath specId : String) : StartOutcome × ContextMap :=
  match env.autoBuildSourcePath with
  | none => (.errored noSourceMessage, contexts)
  | some autoBuildSource =>
    if env.runScriptExists = false then
      (.errored ("Run script not found at: " ++ autoBuildSource ++ "/run.py"), contexts)
    else
      (.spawned "qa-process", contexts)

/-- Result of `AgentManager.restartTask`: the boolean return value, the
updated context map, and whether the current process was killed and a
restart (the only path that can spawn a process again) was scheduled. -/
structure RestartResult where
  success : Bool
  newContexts : ContextMap
  killedCurrent : Bool
  scheduledRestart : Bool

/-- `AgentManager.restartTask`: fail with no side effect when no context is
recorded or the swap counter has reached 2; otherwise increment the counter
in place, kill the current process, schedule the deferred re-start and return
success. -/
def restartTask (contexts : ContextMap) (taskId : String) : RestartResult :=
  match contexts taskId with
  | none =>
    { success := false, newContexts := contexts
      killedCurrent := false, scheduledRestart := false }
  | some context =>
    if 2 ≤ context.swapCount then
      { success := false, newContexts := contexts
        killedCurrent := false, scheduledRestart := false }
    else
      { success := true
        newContexts := fun t =>
          if t = taskId then some { context with swapCount := context.swapCount + 1 }
          else contexts t
        killedCurrent := true
        scheduledRestart := true }

/-- Repeated consecutive `restartTask` calls for one task id: the list of
returned success flags together with the final context map. -/
def runRestarts (contexts : ContextMap) (taskId : String) :
    ℕ → List Bool × ContextMap
  | 0 => ([], contexts)
  | n + 1 =>
    let r := restartTask contexts taskId
    let rest := runRestarts r.newContexts taskId n
    (r.success :: rest.1, rest.2)

/-- The number of restarts a context map still allows for a task: 0 without a
context, otherwise the distance of the swap counter from its cap. -/
def swapBudget (contexts : ContextMap) (taskId : String) : ℕ :=
  match contexts taskId with
  | none => 0
  | some c => 2 - c.swapCount

/-! ## Usage monitor (usage-monitor.ts) -/

/-- The body of a 2xx response of the authoritative usage endpoint; both
utilization fields and both reset timestamps are optional. -/
structure APIUsageData where
  five_hour_utilization : Option ℚ := none
  seven_day_utilization : Option ℚ := none
  five_hour_reset_at : Option String := none
  seven_day_reset_at : Option String := none
deriving DecidableEq

/-- Which limit a snapshot reports as binding. -/
inductive LimitType where
  | session
  | weekly
deriving DecidableEq

/-- `ClaudeUsageSnapshot` (the fields the verified properties concern; the
human-readable reset strings are presentational and omitted). -/
structure ClaudeUsageSnapshot where
  sessionPercent : ℤ
  weeklyPercent : ℤ
  limitType : LimitType
  profileId : String
  profileName : String
  isEstimated : Bool := false
deriving DecidableEq

/-- The snapshot built on the success path of `UsageMonitor.fetchUsageViaAPI`:
missing utilization fields default to 0 via `|| 0`, and the limit type is
weekly exactly when the seven-day utilization strictly exceeds the five-hour
utilization. -/
def apiSnapshot (data : APIUsageData) (profileId profileName : String) :
    ClaudeUsageSnapshot :=
  { sessionPercent := apiPercent data.five_hour_utilization
    weeklyPercent := apiPercent data.seven_day_utilization
    limitType :=
      if data.five_hour_utilization.getD 0 < data.seven_day_utilization.getD 0 then
        .weekly
      else .session
    profileId := profileId
    profileName := profileName
    isEstimated := false }

/-- Outcome of the HTTP exchange with the authoritative endpoint: either a 2xx
response whose body parsed, or a failure (non-2xx status, network error or
malformed body). -/
inductive APIResponse where
  | ok (data : APIUsageData)
  | failed
deriving DecidableEq

/-- `UsageMonitor.fetchUsageViaAPI`: a parsed 2xx response always yields a
snapshot; any failure yields none. -/
def fetchUsageViaAPI (resp : APIResponse) (profileId profileName : String) :
    Option ClaudeUsageSnapshot :=
  match resp with
  | .ok data => some (apiSnapshot data profileId profileName)
  | .failed => none

/-- The source-selection logic of `UsageMonitor.fetchUsage`: the API result is
used whenever the API method is enabled, a token is present and the API call
produced a snapshot; otherwise the local-files fallback result is used. -/
def fetchUsage (useApiMethod hasToken : Bool) (resp : APIResponse)
    (localResult : Option ClaudeUsageSnapshot) (profileId profileName : String) :
    Option ClaudeUsageSnapshot :=
  if useApiMethod && hasToken then
    match fetchUsageViaAPI resp profileId profileName with
    | some apiUsage => some apiUsage
    | none => localResult
  else localResult

/-! ## Calibration (usage-monitor.ts, fetchUsageViaAPI) -/

/-- The two window costs of a local usage computation, as consulted by the
calibration block. -/
structure LocalCosts where
  sessionCostUSD : ℚ
  weeklyCostUSD : ℚ
deriving DecidableEq

/-- `Math.round((localUsage.sessionUsage.costUSD / 0.85) * 100)`. -/
def estimatedSessionPercent (sessionCostUSD : ℚ) : ℤ :=
  round (sessionCostUSD / (17 / 20) * 100)

/-- `Math.round((localUsage.weeklyUsage.costUSD / 28.0) * 100)`. -/
def estimatedWeeklyPercent (weeklyCostUSD : ℚ) : ℤ :=
  round (weeklyCostUSD / 28 * 100)

/-- One calibration opportunity: the rounded authoritative percentages and the
result of the fresh local usage computation (`none` when `calculateLocalUsage`
returned null). -/
structure CalibrationObservation where
  apiSessionPercent : ℤ
  apiWeeklyPercent : ℤ
  localUsage : Option LocalCosts
deriving DecidableEq

/-- The guard chain of the calibration block in `fetchUsageViaAPI`: meaningful
usage (an authoritative percentage above 5), a non-null local computation with
a positive cost in some window, and a disagreement of more than 10 points
between the authoritative and the locally-estimated percentage on some
window. -/
def calibrationCommitted (obs : CalibrationObservation) : Bool :=
  if 5 < obs.apiSessionPercent ∨ 5 < obs.apiWeeklyPercent then
    match obs.localUsage with
    | some localUsage =>
      if 0 < localUsage.sessionCostUSD ∨ 0 < localUsage.weeklyCostUSD then
        let sessionDiff :=
          |obs.apiSessionPercent - estimatedSessionPercent localUsage.sessionCostUSD|
        let weeklyDiff :=
          |obs.apiWeeklyPercent - estimatedWeeklyPercent localUsage.weeklyCostUSD|
        if 10 < sessionDiff ∨ 10 < weeklyDiff then true else false
      else false
    | none => false
  else false

/-- `CalibratedLimits` per profile, as persisted by the profile manager. -/
structure CalibratedLimits where
  sessionCostUSD : ℚ
  weeklyCostUSD : ℚ
  sampleCount : ℕ
deriving DecidableEq

/-- Modelled from the spec: `updateUsageCalibration` lives in the profile
manager, which is not among the sources.  Per spec section 4.2 it recomputes
each implied limit as observedCost / (authoritativePercent / 100) and blends
it into the stored estimate by a weighted average favoring accumulated
history as the sample count grows, incrementing the sample counter. -/
def updateUsageCalibration (limits : CalibratedLimits) (sessionCostUSD : ℚ)
    (apiSessionPercent : ℤ) (weeklyCostUSD : ℚ) (apiWeeklyPercent : ℤ) :
    CalibratedLimits :=
  let n : ℚ := limits.sampleCount
  let impliedSession :=
    if apiSessionPercent = 0 then limits.sessionCostUSD
    else sessionCostUSD / ((apiSessionPercent : ℚ) / 100)
  let impliedWeekly :=
    if apiWeeklyPercent = 0 then limits.weeklyCostUSD
    else weeklyCostUSD / ((apiWeeklyPercent : ℚ) / 100)
  { sessionCostUSD := (limits.sessionCostUSD * n + impliedSession) / (n + 1)
    weeklyCostUSD := (limits.weeklyCostUSD * n + impliedWeekly) / (n + 1)
    sampleCount := limits.sampleCount + 1 }

/-- Effect of one calibration opportunity on the stored `CalibratedLimits`:
the update is invoked exactly when the guard chain passes. -/
def calibrationStep (limits : CalibratedLimits) (obs : CalibrationObservation) :
    CalibratedLimits :=
  if calibrationCommitted obs then
    match obs.localUsage with
    | some localUsage =>
      updateUsageCalibration limits localUsage.sessionCostUSD obs.apiSessionPercent
        localUsage.weeklyCostUSD obs.apiWeeklyPercent
    | none => limits
  else limits

/-- An observation where the authoritative percentage and the local estimate
agree within the 10-point tolerance on both windows. -/
def withinTolerance (obs : CalibrationObservation) : Prop :=
  ∀ localUsage, obs.localUsage = some localUsage →
    |obs.apiSessionPercent - estimatedSessionPercent localUsage.sessionCostUSD| ≤ 10 ∧
    |obs.apiWeeklyPercent - estimatedWeeklyPercent localUsage.weeklyCostUSD| ≤ 10

/-! ## Proactive swap (usage-monitor.ts) -/

/-- `AutoSwitchSettings` as consulted by `checkUsageAndSwap`. -/
structure AutoSwitchSettings where
  enabled : Bool
  proactiveSwapEnabled : Bool
  sessionThreshold : ℤ
  weeklyThreshold : ℤ
deriving DecidableEq

/-- A credential profile (identifier and display name). -/
structure Profile where
  id : String
  name : String
deriving DecidableEq

/-- Events emitted by the proactive-swap path. -/
inductive SwapEvent where
  | proactiveSwapCompleted (fromProfileId toProfileId : String) (limitType : String)
  | proactiveSwapFailed (reason : String) (currentProfile : String)
  | showSwapNotification (toProfileName : String) (limitType : String)
deriving DecidableEq

/-- Outcome of the threshold-checking part of one monitor tick. -/
structure SwapOutcome where
  events : List SwapEvent
  newActiveProfileId : String
  attempted : Bool
deriving DecidableEq

/-- Modelled from the spec: `getBestAvailableProfile` lives in the profile
manager, which is not among the sources.  Per spec section 4.3 step 6 and
scenario C it selects an alternative profile — one different from the current
profile — or none when no alternative exists. -/
def getBestAvailableProfile (profiles : List Profile) (currentProfileId : String) :
    Option Profile :=
  (profiles.filter fun p => p.id != currentProfileId).head?

/-- `UsageMonitor.performProactiveSwap`: with no alternative profile, emit
`proactive-swap-failed` with reason no_alternative and return; otherwise set
the alternative active and emit `proactive-swap-completed` plus the UI
notification. -/
def performProactiveSwap (bestProfile : Option Profile)
    (currentProfileId : String) (limitType : String) : SwapOutcome :=
  match bestProfile with
  | none =>
    { events := [.proactiveSwapFailed "no_alternative" currentProfileId]
      newActiveProfileId := currentProfileId
      attempted := true }
  | some best =>
    { events := [.proactiveSwapCompleted currentProfileId best.id limitType,
                 .showSwapNotification best.name limitType]
      newActiveProfileId := best.id
      attempted := true }

/-- The threshold-evaluation section of `UsageMonitor.checkUsageAndSwap` for a
tick whose fetch succeeded: auto-switching must be enabled and proactive
swapping enabled; a swap is attempted when either window's percentage reaches
its threshold, with the limit type naming the session window when it is the
one exceeded. -/
def checkUsageAndSwapStep (settings : AutoSwitchSettings)
    (usage : ClaudeUsageSnapshot) (profiles : List Profile)
    (activeProfileId : String) : SwapOutcome :=
  if settings.enabled && settings.proactiveSwapEnabled then
    if settings.sessionThreshold ≤ usage.sessionPercent ∨
        settings.weeklyThreshold ≤ usage.weeklyPercent then
      performProactiveSwap (getBestAvailableProfile profiles activeProfileId)
        activeProfileId
        (if settings.sessionThreshold ≤ usage.sessionPercent then "session" else "weekly")
    else
      { events := [], newActiveProfileId := activeProfileId, attempted := false }
  else
    { events := [], newActiveProfileId := activeProfileId, attempted := false }

/-! ## Theorems -/

/-! ### C1 — restartTask swap cap -/

/-- Helper: a restart with no recorded context fails with no side effect. -/
theorem restartTask_blocked_none (contexts : ContextMap) (taskId : String)
    (hc : contexts taskId = none) :
    restartTask contexts taskId =
      { success := false, newContexts := contexts,
        killedCurrent := false, scheduledRestart := false } := by
  simp [restartTask, hc]

/-- Helper: a restart with the swap counter at its cap fails with no side
effect. -/
theorem restartTask_blocked_cap (contexts : ContextMap) (taskId : String)
    (c : TaskContext) (hc : contexts taskId = some c) (h2 : 2 ≤ c.swapCount) :
    restartTask contexts taskId =
      { success := false, newContexts := contexts,
        killedCurrent := false, scheduledRestart := false } := by
  simp [restartTask, hc, h2]

/-- Helper: a restart below the cap succeeds and increments the counter. -/
theorem restartTask_success_eq (contexts : ContextMap) (taskId : String)
    (c : TaskContext) (hc : contexts taskId = some c) (h2 : c.swapCount < 2) :
    restartTask contexts taskId =
      { success := true,
        newContexts := fun t =>
          if t = taskId then some { c with swapCount := c.swapCount + 1 }
          else contexts t,
        killedCurrent := true, scheduledRestart := true } := by
  have : ¬ 2 ≤ c.swapCount := by omega
  simp [restartTask, hc, this]

/-- Helper: in any run of consecutive restarts the number of successes is
bounded by the remaining swap budget. -/
theorem runRestarts_count_le (taskId : String) :
    ∀ (n : ℕ) (contexts : ContextMap),
      (runRestarts contexts taskId n).1.count true ≤ swapBudget contexts taskId := by
  intro n
  induction n with
  | zero => intro contexts; simp [runRestarts]
  | succ n ih =>
    intro contexts
    cases hc : contexts taskId with
    | none =>
      have hthis := ih contexts
      simpa [runRestarts, restartTask_blocked_none contexts taskId hc,
        List.count_cons] using hthis
    | some c =>
      by_cases h2 : 2 ≤ c.swapCount
      · have hthis := ih contexts
        simp only [runRestarts, restartTask_blocked_cap contexts taskId c hc h2,
          List.count_cons]
        simpa using hthis
      · have hthis := ih (fun t =>
          if t = taskId then some { c with swapCount := c.swapCount + 1 }
          else contexts t)
        have hb : swapBudget (fun t =>
            if t = taskId then some { c with swapCount := c.swapCount + 1 }
            else contexts t) taskId = 2 - (c.swapCount + 1) := by
          simp [swapBudget]
        rw [hb] at hthis
        have hb2 : swapBudget contexts taskId = 2 - c.swapCount := by
          simp [swapBudget, hc]
        rw [hb2]
        simp only [runRestarts,
          restartTask_success_eq contexts taskId c hc (by omega), List.count_cons]
        simp only [beq_self_eq_true, if_true]
        omega

/-- Claim C1: `restartTask` fails (spawning and killing nothing) when no
context is recorded for the task id or when the swap counter has reached 2;
otherwise it increments the counter and returns success.  Consequently at most
two of any number of consecutive `restartTask` calls for the same task
succeed, and from a fresh context (counter 0) three consecutive calls return
success, success, failure. -/
theorem restartTask_swap_cap (contexts : ContextMap) (taskId : String) :
    (contexts taskId = none →
      (restartTask contexts taskId).success = false ∧
      (restartTask contexts taskId).scheduledRestart = false ∧
      (restartTask contexts taskId).killedCurrent = false) ∧
    (∀ c, contexts taskId = some c → 2 ≤ c.swapCount →
      (restartTask contexts taskId).success = false ∧
      (restartTask contexts taskId).scheduledRestart = false ∧
      (restartTask contexts taskId).killedCurrent = false ∧
      (restartTask contexts taskId).newContexts taskId = contexts taskId) ∧
    (∀ c, contexts taskId = some c → c.swapCount < 2 →
      (restartTask contexts taskId).success = true ∧
      (restartTask contexts taskId).newContexts taskId =
        some { c with swapCount := c.swapCount + 1 }) ∧
    (∀ n, (runRestarts contexts taskId n).1.count true ≤ 2) ∧
    (∀ c, contexts taskId = some c → c.swapCount = 0 →
      (runRestarts contexts taskId 3).1 = [true, true, false]) := by
  refine ⟨fun hc => ?_, fun c hc h2 => ?_, fun c hc h2 => ?_, fun n => ?_,
    fun c hc h0 => ?_⟩
  · simp [restartTask_blocked_none contexts taskId hc]
  · simp [restartTask_blocked_cap contexts taskId c hc h2, hc]
  · simp [restartTask_success_eq contexts taskId c hc h2]
  · refine le_trans (runRestarts_count_le taskId n contexts) ?_
    unfold swapBudget
    cases contexts taskId with
    | none => exact Nat.zero_le 2
    | some c => exact Nat.sub_le 2 c.swapCount
  · obtain ⟨pp, sid, opt, isc, td, sd, md, sw⟩ := c
    simp only at h0
    subst h0
    simp [runRestarts, restartTask, hc]

/-- Witness for C1: scenario D on a concrete one-task context map. -/
theorem restartTask_swap_cap_witness :
    (runRestarts
        (fun t => if t = "task-1" then
          some { projectPath := "p", specId := "s", swapCount := 0 } else none)
        "task-1" 3).1 = [true, true, false] :=
  (restartTask_swap_cap
      (fun t => if t = "task-1" then
        some { projectPath := "p", specId := "s", swapCount := 0 } else none)
      "task-1").2.2.2.2 { projectPath := "p", specId := "s", swapCount := 0 } rfl rfl

/-! ### C2 — percentage clamp -/

/-- Counterexample for C2 as stated: the local-estimation path has no lower
clamp (`Math.min(100, ...)` only), so a negative cost/limit ratio publishes a
negative percentage; and the API path applies no clamp at all, so a
utilization of 1.5 publishes 150. -/
theorem percent_clamp_cex :
    localPercent (-1) 1 < 0 ∧ 100 < apiPercent (some (3 / 2)) := by
  constructor <;> norm_num [localPercent, apiPercent, round_eq]

/-- Claim C2 (amended): the local-estimation percentage never exceeds 100 for
any ratio, and lies in [0, 100] whenever the cost is non-negative and the
limit positive; the API-path percentage lies in [0, 100] whenever the reported
utilization fraction lies in [0, 1] (it is not clamped). -/
theorem percent_clamp_amended :
    (∀ costUSD limitUSD : ℚ, localPercent costUSD limitUSD ≤ 100) ∧
    (∀ costUSD limitUSD : ℚ, 0 ≤ costUSD → 0 < limitUSD →
      0 ≤ localPercent costUSD limitUSD) ∧
    (∀ utilization : ℚ, 0 ≤ utilization → utilization ≤ 1 →
      0 ≤ apiPercent (some utilization) ∧ apiPercent (some utilization) ≤ 100) := by
  refine ⟨fun c l => min_le_left _ _, fun c l hc hl => ?_, fun u hu0 hu1 => ?_⟩
  · have hr : (0 : ℚ) ≤ c / l * 100 := by positivity
    refine le_min (by norm_num) ?_
    rw [round_eq]
    exact Int.le_floor.mpr (by push_cast; linarith)
  · constructor
    · simp only [apiPercent, Option.getD_some, round_eq]
      exact Int.le_floor.mpr (by push_cast; nlinarith)
    · simp only [apiPercent, Option.getD_some, round_eq]
      have : (⌊u * 100 + 1 / 2⌋ : ℤ) < 101 := by
        rw [Int.floor_lt]
        push_cast
        nlinarith
      omega

/-- Witness for C2 on concrete non-negative inputs. -/
theorem percent_clamp_witness :
    0 ≤ localPercent (1 / 2) 1 ∧ apiPercent (some (19 / 20)) ≤ 100 :=
  ⟨percent_clamp_amended.2.1 (1 / 2) 1 (by norm_num) (by norm_num),
   (percent_clamp_amended.2.2 (19 / 20) (by norm_num) (by norm_num)).2⟩

/-! ### C3 — window membership by timestamp -/

/-- Helper: folding an event into a window always increments its event count,
so the window record changes. -/
theorem addToAggregation_ne (agg : AggregatedUsage) (usage : TokenUsage)
    (timestamp : ℚ) (costUSD : Option ℚ) :
    addToAggregation agg usage timestamp costUSD ≠ agg := by
  intro h
  have := congrArg AggregatedUsage.eventCount h
  simp [addToAggregation] at this

/-- Claim C3: for an event with a parseable timestamp, a timestamp strictly
older than the weekly cutoff contributes to neither window; one at or after
the weekly cutoff but strictly before the session cutoff leaves the session
window unchanged and (when the event passes the usage filters) changes the
weekly window; and — the session window changing implies the timestamp is at
or after the session cutoff, and with the cutoffs ordered as in every call
site (weekly before session) an event passing the usage filters changes the
session window exactly when its timestamp is at or after the session
cutoff. -/
theorem window_filtering (parseISO : String → Option ℚ)
    (sessionCutoff weeklyCutoff : ℚ) (st : ProcessState) (event : ClaudeEvent)
    (ts : ℚ) (hts : parseTimestamp parseISO event = some ts) :
    (ts < weeklyCutoff →
      (processEvent parseISO sessionCutoff weeklyCutoff st event).weeklyUsage = st.weeklyUsage ∧
      (processEvent parseISO sessionCutoff weeklyCutoff st event).sessionUsage = st.sessionUsage) ∧
    (weeklyCutoff ≤ ts → ts < sessionCutoff →
      (processEvent parseISO sessionCutoff weeklyCutoff st event).sessionUsage = st.sessionUsage) ∧
    (weeklyCutoff ≤ ts → ts < sessionCutoff → eventTotalTokens event ≠ 0 →
      (processEvent parseISO sessionCutoff weeklyCutoff st event).weeklyUsage ≠ st.weeklyUsage) ∧
    ((processEvent parseISO sessionCutoff weeklyCutoff st event).sessionUsage ≠ st.sessionUsage →
      sessionCutoff ≤ ts) ∧
    (weeklyCutoff ≤ sessionCutoff → eventTotalTokens event ≠ 0 →
      ((processEvent parseISO sessionCutoff weeklyCutoff st event).sessionUsage ≠ st.sessionUsage ↔
        sessionCutoff ≤ ts)) := by
  simp only [processEvent, hts]
  refine ⟨fun hold => ?_, fun hw hs => ?_, fun hw hs htok => ?_, fun hch => ?_,
    fun hws htok => ?_⟩
  · simp [hold]
  · have : ¬ ts < weeklyCutoff := not_lt.mpr hw
    simp only [this, if_false]
    cases hu : extractUsage event with
    | none => simp
    | some usage =>
      by_cases hz : totalTokensInEvent usage = 0
      · simp [hz]
      · have : ¬ sessionCutoff ≤ ts := not_le.mpr hs
        simp [hz, this]
  · have hnw : ¬ ts < weeklyCutoff := not_lt.mpr hw
    cases hu : extractUsage event with
    | none => simp [eventTotalTokens, hu] at htok
    | some usage =>
      have hz : totalTokensInEvent usage ≠ 0 := by
        simpa [eventTotalTokens, hu] using htok
      simp only [hnw, if_false, hu, hz, if_neg hz]
      have : ¬ sessionCutoff ≤ ts := not_le.mpr hs
      simp only [this, if_false]
      exact addToAggregation_ne _ _ _ _
  · by_contra hns
    apply hch
    by_cases hold : ts < weeklyCutoff
    · simp [hold]
    · simp only [hold, if_false]
      cases hu : extractUsage event with
      | none => simp
      | some usage =>
        by_cases hz : totalTokensInEvent usage = 0
        · simp [hz]
        · simp [hz, hns]
  · constructor
    · intro hch
      by_contra hns
      apply hch
      by_cases hold : ts < weeklyCutoff
      · simp [hold]
      · simp only [hold, if_false]
        cases hu : extractUsage event with
        | none => simp
        | some usage =>
          by_cases hz : totalTokensInEvent usage = 0
          · simp [hz]
          · simp [hz, hns]
    · intro hsc
      have hw : weeklyCutoff ≤ ts := le_trans hws hsc
      have hnw : ¬ ts < weeklyCutoff := not_lt.mpr hw
      cases hu : extractUsage event with
      | none => simp [eventTotalTokens, hu] at htok
      | some usage =>
        have hz : totalTokensInEvent usage ≠ 0 := by
          simpa [eventTotalTokens, hu] using htok
        simp only [hnw, if_false, hu, if_neg hz, hsc, if_true]
        exact addToAggregation_ne _ _ _ _

/-- Witness for C3: an event between the cutoffs leaves the session window
unchanged. -/
theorem window_filtering_witness :
    (processEvent (fun _ => none) 2000000 0
        ⟨createEmptyAggregation, createEmptyAggregation, 0, 0, 0, 0⟩
        { timestamp := some (.num 1000) }).sessionUsage = createEmptyAggregation :=
  (window_filtering (fun _ => none) 2000000 0
      ⟨createEmptyAggregation, createEmptyAggregation, 0, 0, 0, 0⟩
      { timestamp := some (.num 1000) } 1000000
      (by norm_num [parseTimestamp, tsValueOf, truthyOpt, tsTruthy, validDate,
        parseNumericTimestampMs, MAX_DATE_MS])).2.1
    (by norm_num) (by norm_num)

/-! ### C4 — sidechain and zero-token exclusion -/

/-- Claim C4: a sidechain-flagged event, and an event whose total token count
across the four kinds is zero, contribute nothing (no tokens, no cost, no
event count) to the session or the weekly window. -/
theorem sidechain_and_zero_token_exclusion (parseISO : String → Option ℚ)
    (sessionCutoff weeklyCutoff : ℚ) (st : ProcessState) (event : ClaudeEvent) :
    (event.isSidechain = true →
      (processEvent parseISO sessionCutoff weeklyCutoff st event).sessionUsage = st.sessionUsage ∧
      (processEvent parseISO sessionCutoff weeklyCutoff st event).weeklyUsage = st.weeklyUsage) ∧
    (eventTotalTokens event = 0 →
      (processEvent parseISO sessionCutoff weeklyCutoff st event).sessionUsage = st.sessionUsage ∧
      (processEvent parseISO sessionCutoff weeklyCutoff st event).weeklyUsage = st.weeklyUsage) := by
  constructor
  · intro hside
    have hu : extractUsage event = none := by simp [extractUsage, hside]
    cases hts : parseTimestamp parseISO event with
    | none => simp [processEvent, hts]
    | some ts =>
      by_cases hold : ts < weeklyCutoff <;> simp [processEvent, hts, hold, hu]
  · intro htok
    cases hts : parseTimestamp parseISO event with
    | none => simp [processEvent, hts]
    | some ts =>
      by_cases hold : ts < weeklyCutoff
      · simp [processEvent, hts, hold]
      · cases hu : extractUsage event with
        | none => simp [processEvent, hts, hold, hu]
        | some usage =>
          have hz : totalTokensInEvent usage = 0 := by
            simpa [eventTotalTokens, hu] using htok
          simp [processEvent, hts, hold, hu, hz]

/-- Witness for C4: a recent sidechain event with real token counts leaves the
weekly window unchanged. -/
theorem sidechain_exclusion_witness :
    (processEvent (fun _ => none) 0 0
        ⟨createEmptyAggregation, createEmptyAggregation, 0, 0, 0, 0⟩
        { timestamp := some (.num 1000),
          usage := some { input_tokens := some 5 }, isSidechain := true }).weeklyUsage =
      createEmptyAggregation :=
  ((sidechain_and_zero_token_exclusion (fun _ => none) 0 0
      ⟨createEmptyAggregation, createEmptyAggregation, 0, 0, 0, 0⟩
      { timestamp := some (.num 1000),
        usage := some { input_tokens := some 5 }, isSidechain := true }).1 rfl).2

/-! ### C5 — timestamp parsing -/

/-- Counterexample for C5 as stated: 10000000000 is below the
millisecond-epoch value for year 2100 (4102444800000), yet the parser does not
multiply it by 1000 — the seconds-vs-milliseconds decision uses the
second-epoch value 4102444800, not the millisecond-epoch value. -/
theorem timestamp_unit_threshold_cex :
    (10000000000 : ℚ) < 4102444800000 ∧
    parseNumericTimestampMs 10000000000 ≠ 10000000000 * 1000 := by
  norm_num [parseNumericTimestampMs]

/-- Claim C5 (amended): a numeric timestamp is interpreted as seconds
(multiplied by 1000) exactly when it is below the second-epoch value for year
2100 (4102444800), and as milliseconds otherwise; ISO-8601 strings are handed
to the host date parser; and an event whose timestamp fails to parse (or
yields an invalid date) is skipped and counted, with both windows
untouched. -/
theorem timestamp_parsing_amended (parseISO : String → Option ℚ) :
    (∀ q : ℚ, parseNumericTimestampMs q = if q < 4102444800 then q * 1000 else q) ∧
    (∀ (event : ClaudeEvent) (s : String), tsValueOf event = some (.str s) →
      parseTimestamp parseISO event = (parseISO s).bind validDate) ∧
    (∀ (event : ClaudeEvent) (q : ℚ), tsValueOf event = some (.num q) →
      parseTimestamp parseISO event = validDate (parseNumericTimestampMs q)) ∧
    (∀ (sessionCutoff weeklyCutoff : ℚ) (st : ProcessState) (event : ClaudeEvent),
      parseTimestamp parseISO event = none →
      processEvent parseISO sessionCutoff weeklyCutoff st event =
        { st with totalEventsProcessed := st.totalEventsProcessed + 1
                  eventsSkippedNoTimestamp := st.eventsSkippedNoTimestamp + 1 }) := by
  refine ⟨fun q => ?_, fun event s h => ?_, fun event q h => ?_, fun sc wc st event h => ?_⟩
  · by_cases h1 : q < 4102444800
    · have h2 : q < 4102444800000 := by linarith
      simp [parseNumericTimestampMs, h1, h2]
    · by_cases h2 : q < 4102444800000 <;> simp [parseNumericTimestampMs, h1, h2]
  · simp [parseTimestamp, h]
  · simp [parseTimestamp, h]
  · simp [processEvent, h]

/-- Witness for C5: an unparseable string timestamp is counted as skipped and
changes no window. -/
theorem timestamp_parsing_witness :
    processEvent (fun _ => none) 0 0
        ⟨createEmptyAggregation, createEmptyAggregation, 0, 0, 0, 0⟩
        { timestamp := some (.str "not-a-date") } =
      ⟨createEmptyAggregation, createEmptyAggregation, 1, 0, 0, 1⟩ :=
  (timestamp_parsing_amended (fun _ => none)).2.2.2 0 0
    ⟨createEmptyAggregation, createEmptyAggregation, 0, 0, 0, 0⟩
    { timestamp := some (.str "not-a-date") } rfl

/-! ### C6 — cost linearity and precomputed-cost precedence -/

/-- Counterexample for C6 as stated: an event carrying the precomputed cost 0
does not take precedence — the guard `costUSD && costUSD > 0` rejects it and
the computed cost (3 dollars for one million input tokens) is added
instead. -/
theorem addToAggregation_precedence_cex :
    (addToAggregation createEmptyAggregation { input_tokens := some 1000000 } 0
        (some 0)).costUSD ≠ createEmptyAggregation.costUSD + 0 := by
  norm_num [addToAggregation, createEmptyAggregation, orZero, calculateCost, SONNET_PRICING]

/-- Claim C6 (amended): the cost function is the linear sum of the four token
counts weighted by the fixed per-million rates, with the cache-read rate
strictly below and the cache-write rate strictly above the input rate; and a
precomputed event cost takes precedence exactly when it is present and
strictly positive — otherwise (absent, zero or negative) the computed cost is
used. -/
theorem calculateCost_linear_and_precedence :
    (∀ inputTokens outputTokens cacheReadTokens cacheWriteTokens : ℚ,
      0 ≤ inputTokens → 0 ≤ outputTokens → 0 ≤ cacheReadTokens → 0 ≤ cacheWriteTokens →
      calculateCost inputTokens outputTokens cacheReadTokens cacheWriteTokens =
        inputTokens * (3 / 1000000) + outputTokens * (15 / 1000000) +
        cacheReadTokens * ((3 / 10) / 1000000) + cacheWriteTokens * ((15 / 4) / 1000000)) ∧
    SONNET_PRICING.cacheReadPerMillion < SONNET_PRICING.inputPerMillion ∧
    SONNET_PRICING.inputPerMillion < SONNET_PRICING.cacheWritePerMillion ∧
    (∀ (agg : AggregatedUsage) (usage : TokenUsage) (ts c : ℚ), 0 < c →
      (addToAggregation agg usage ts (some c)).costUSD = agg.costUSD + c) ∧
    (∀ (agg : AggregatedUsage) (usage : TokenUsage) (ts c : ℚ), c ≤ 0 →
      (addToAggregation agg usage ts (some c)).costUSD = agg.costUSD +
        calculateCost (orZero usage.input_tokens) (orZero usage.output_tokens)
          (orZero usage.cache_read_input_tokens) (orZero usage.cache_creation_input_tokens)) ∧
    (∀ (agg : AggregatedUsage) (usage : TokenUsage) (ts : ℚ),
      (addToAggregation agg usage ts none).costUSD = agg.costUSD +
        calculateCost (orZero usage.input_tokens) (orZero usage.output_tokens)
          (orZero usage.cache_read_input_tokens) (orZero usage.cache_creation_input_tokens)) := by
  refine ⟨fun i o cr cw _ _ _ _ => ?_, by norm_num [SONNET_PRICING],
    by norm_num [SONNET_PRICING], fun agg usage ts c hc => ?_, fun agg usage ts c hc => ?_,
    fun agg usage ts => ?_⟩
  · simp only [calculateCost, SONNET_PRICING]
    ring
  · simp [addToAggregation, hc]
  · have : ¬ (0 < c) := not_lt.mpr hc
    simp [addToAggregation, this]
  · simp [addToAggregation]

/-- Witness for C6 on concrete non-negative token counts. -/
theorem calculateCost_witness :
    calculateCost 1000000 2000000 0 0 = 1000000 * (3 / 1000000) + 2000000 * (15 / 1000000) +
      0 * ((3 / 10) / 1000000) + 0 * ((15 / 4) / 1000000) :=
  calculateCost_linear_and_precedence.1 1000000 2000000 0 0 (by norm_num) (by norm_num)
    (by norm_num) (by norm_num)

/-! ### C7 — start-operation auth contracts -/

/-- Counterexample for C7 as stated: with an invalidly-authenticated profile
but a configured source path and an existing run.py, `startQAProcess` spawns a
worker — it performs no authentication pre-flight. -/
theorem startQA_spawns_without_auth_cex :
    (startQAProcess
        { hasValidAuth := false, hasZaiKey := false,
          autoBuildSourcePath := some "auto-claude", specRunnerExists := true,
          runScriptExists := true }
        (fun _ => none) "task-1" "proj" "spec-1").1 = .spawned "qa-process" := rfl

/-- Claim C7 (amended): with invalid authentication, `startSpecCreation` and
`startTaskExecution` spawn nothing and signal the actionable authentication
error; `startQAProcess` performs no authentication pre-flight — its outcome is
independent of the authentication state. -/
theorem start_auth_contracts (env : StartEnv) (contexts : ContextMap)
    (taskId projectPath taskDescription specId : String) (specDir : Option String)
    (metadata : Option SpecCreationMetadata) (options : TaskExecutionOptions)
    (hauth : env.hasValidAuth = false) :
    startSpecCreation env contexts taskId projectPath taskDescription specDir metadata =
      (.errored authErrorMessage, contexts) ∧
    startTaskExecution env contexts taskId projectPath specId options =
      (.errored authErrorMessage, contexts) ∧
    (∀ b, startQAProcess { env with hasValidAuth := b } contexts taskId projectPath specId =
      startQAProcess env contexts taskId projectPath specId) := by
  refine ⟨?_, ?_, fun b => ?_⟩
  · simp [startSpecCreation, hauth]
  · simp [startTaskExecution, hauth]
  · cases env
    rfl

/-- Witness for C7: spec creation with invalid auth on a concrete
environment. -/
theorem start_auth_contracts_witness :
    startSpecCreation
        { hasValidAuth := false, hasZaiKey := false,
          autoBuildSourcePath := some "auto-claude", specRunnerExists := true,
          runScriptExists := true }
        (fun _ => none) "task-1" "proj" "desc" none none =
      (.errored authErrorMessage, (fun _ => none)) :=
  (start_auth_contracts
      { hasValidAuth := false, hasZaiKey := false,
        autoBuildSourcePath := some "auto-claude", specRunnerExists := true,
        runScriptExists := true }
      (fun _ => none) "task-1" "proj" "desc" "spec-1" none none {} rfl).1

/-! ### C8 — proactive swap on threshold breach -/

/-- Claim C8: with auto-switching and proactive swapping enabled, a tick whose
snapshot has either window's percentage at or above its threshold makes
exactly one swap attempt: with no alternative profile it emits
`proactive-swap-failed` with reason no_alternative and keeps the active
profile; with an alternative it changes the active profile (the selected
profile differs from the current one) and emits `proactive-swap-completed`.
With no threshold breach the tick makes no attempt, emits nothing and keeps
the active profile, so a failed attempt is not retried before the next
breach. -/
theorem proactive_swap_behavior (settings : AutoSwitchSettings)
    (usage : ClaudeUsageSnapshot) (profiles : List Profile) (activeProfileId : String)
    (hen : settings.enabled = true) (hpro : settings.proactiveSwapEnabled = true) :
    (settings.sessionThreshold ≤ usage.sessionPercent ∨
        settings.weeklyThreshold ≤ usage.weeklyPercent →
      (checkUsageAndSwapStep settings usage profiles activeProfileId).attempted = true ∧
      (getBestAvailableProfile profiles activeProfileId = none →
        (checkUsageAndSwapStep settings usage profiles activeProfileId).events =
          [.proactiveSwapFailed "no_alternative" activeProfileId] ∧
        (checkUsageAndSwapStep settings usage profiles activeProfileId).newActiveProfileId =
          activeProfileId) ∧
      (∀ best, getBestAvailableProfile profiles activeProfileId = some best →
        (checkUsageAndSwapStep settings usage profiles activeProfileId).newActiveProfileId =
          best.id ∧
        best.id ≠ activeProfileId ∧
        (checkUsageAndSwapStep settings usage profiles activeProfileId).events.head? =
          some (.proactiveSwapCompleted activeProfileId best.id
            (if settings.sessionThreshold ≤ usage.sessionPercent then "session"
             else "weekly")))) ∧
    (¬ (settings.sessionThreshold ≤ usage.sessionPercent ∨
        settings.weeklyThreshold ≤ usage.weeklyPercent) →
      (checkUsageAndSwapStep settings usage profiles activeProfileId).attempted = false ∧
      (checkUsageAndSwapStep settings usage profiles activeProfileId).events = [] ∧
      (checkUsageAndSwapStep settings usage profiles activeProfileId).newActiveProfileId =
        activeProfileId) := by
  constructor
  · intro hbreach
    refine ⟨?_, fun hnone => ?_, fun best hbest => ?_⟩
    · simp [checkUsageAndSwapStep, hen, hpro, hbreach, performProactiveSwap]
      cases getBestAvailableProfile profiles activeProfileId <;>
        simp [performProactiveSwap]
    · simp [checkUsageAndSwapStep, hen, hpro, hbreach, hnone, performProactiveSwap]
    · have hne : best.id ≠ activeProfileId := by
        have hmem : best ∈ profiles.filter (fun p => p.id != activeProfileId) := by
          cases hf : profiles.filter (fun p => p.id != activeProfileId) with
          | nil => simp [getBestAvailableProfile, hf] at hbest
          | cons b t =>
            simp [getBestAvailableProfile, hf] at hbest
            rw [hbest]
            exact List.mem_cons_self _ _
        have := (List.mem_filter.mp hmem).2
        exact bne_iff_ne.mp this
      refine ⟨?_, hne, ?_⟩
      · simp [checkUsageAndSwapStep, hen, hpro, hbreach, hbest, performProactiveSwap]
      · simp [checkUsageAndSwapStep, hen, hpro, hbreach, hbest, performProactiveSwap]
  · intro hno
    simp [checkUsageAndSwapStep, hen, hpro, hno]

/-- Witness for C8: scenario C with an alternate profile available — the
active profile changes. -/
theorem proactive_swap_witness :
    (checkUsageAndSwapStep ⟨true, true, 90, 90⟩
        ⟨95, 0, .session, "a", "A", false⟩ [⟨"a", "A"⟩, ⟨"b", "B"⟩] "a").newActiveProfileId =
      "b" :=
  ((proactive_swap_behavior ⟨true, true, 90, 90⟩ ⟨95, 0, .session, "a", "A", false⟩
      [⟨"a", "A"⟩, ⟨"b", "B"⟩] "a" rfl rfl).1
    (Or.inl (by norm_num)) |>.2.2 ⟨"b", "B"⟩ rfl).1

/-! ### C9 — calibration commit guard and convergence -/

/-- Helper: an observation within the 10-point tolerance never passes the
calibration guard chain. -/
theorem calibration_tolerance_no_commit (obs : CalibrationObservation)
    (htol : withinTolerance obs) : calibrationCommitted obs = false := by
  unfold calibrationCommitted
  by_cases h5 : 5 < obs.apiSessionPercent ∨ 5 < obs.apiWeeklyPercent
  · simp only [h5, if_true]
    cases hl : obs.localUsage with
    | none => rfl
    | some localUsage =>
      obtain ⟨hs, hw⟩ := htol localUsage hl
      have hns : ¬ 10 < |obs.apiSessionPercent -
          estimatedSessionPercent localUsage.sessionCostUSD| := by omega
      have hnw : ¬ 10 < |obs.apiWeeklyPercent -
          estimatedWeeklyPercent localUsage.weeklyCostUSD| := by omega
      by_cases hpos : 0 < localUsage.sessionCostUSD ∨ 0 < localUsage.weeklyCostUSD <;>
        simp [hpos, hns, hnw]
  · simp [h5]

/-- Claim C9: a calibration correction is committed only when some
authoritative percentage exceeds 5 and the authoritative and locally-estimated
percentages disagree by more than 10 points on some window; and over any
sequence of observations that agree within the tolerance the stored
`CalibratedLimits` are unchanged. -/
theorem calibration_commit_guard :
    (∀ obs : CalibrationObservation, calibrationCommitted obs = true →
      (5 < obs.apiSessionPercent ∨ 5 < obs.apiWeeklyPercent) ∧
      ∃ localUsage, obs.localUsage = some localUsage ∧
        (10 < |obs.apiSessionPercent - estimatedSessionPercent localUsage.sessionCostUSD| ∨
         10 < |obs.apiWeeklyPercent - estimatedWeeklyPercent localUsage.weeklyCostUSD|)) ∧
    (∀ obs, calibrationCommitted obs = false →
      ∀ limits, calibrationStep limits obs = limits) ∧
    (∀ (limits : CalibratedLimits) (observations : List CalibrationObservation),
      (∀ obs ∈ observations, withinTolerance obs) →
      observations.foldl calibrationStep limits = limits) := by
  refine ⟨fun obs hcommit => ?_, fun obs hnc limits => ?_, fun limits observations hall => ?_⟩
  · unfold calibrationCommitted at hcommit
    by_cases h5 : 5 < obs.apiSessionPercent ∨ 5 < obs.apiWeeklyPercent
    · refine ⟨h5, ?_⟩
      simp only [h5, if_true] at hcommit
      cases hl : obs.localUsage with
      | none => rw [hl] at hcommit; simp at hcommit
      | some localUsage =>
        rw [hl] at hcommit
        refine ⟨localUsage, rfl, ?_⟩
        by_cases hdiff : 10 < |obs.apiSessionPercent -
            estimatedSessionPercent localUsage.sessionCostUSD| ∨
            10 < |obs.apiWeeklyPercent - estimatedWeeklyPercent localUsage.weeklyCostUSD|
        · exact hdiff
        · by_cases hpos : 0 < localUsage.sessionCostUSD ∨ 0 < localUsage.weeklyCostUSD <;>
            simp [hpos, hdiff] at hcommit
    · simp [h5] at hcommit
  · simp [calibrationStep, hnc]
  · induction observations generalizing limits with
    | nil => rfl
    | cons obs rest ih =>
      have hstep : calibrationStep limits obs = limits := by
        have := calibration_tolerance_no_commit obs (hall obs (List.mem_cons_self _ _))
        simp [calibrationStep, this]
      rw [List.foldl_cons, hstep]
      exact ih limits (fun o ho => hall o (List.mem_cons_of_mem _ ho))

/-- Witness for C9: an in-tolerance observation leaves concrete limits
unchanged (authoritative 50/40 versus local estimates 50/40). -/
theorem calibration_commit_witness :
    [({ apiSessionPercent := 50, apiWeeklyPercent := 40,
        localUsage := some ⟨17 / 40, 56 / 5⟩ } : CalibrationObservation)].foldl
      calibrationStep ⟨17 / 20, 28, 0⟩ = ⟨17 / 20, 28, 0⟩ :=
  calibration_commit_guard.2.2 ⟨17 / 20, 28, 0⟩
    [{ apiSessionPercent := 50, apiWeeklyPercent := 40,
       localUsage := some ⟨17 / 40, 56 / 5⟩ }]
    (by
      intro obs hobs
      simp at hobs
      subst hobs
      intro localUsage hl
      simp only [Option.some_inj] at hl
      subst hl
      constructor <;>
        norm_num [estimatedSessionPercent, estimatedWeeklyPercent, round_eq])

/-! ### C10 — authoritative fetch with missing fields -/

/-- Claim C10: a parsed 2xx response succeeds even with missing utilization
fields — the fetch produces a snapshot (no fallback is triggered), a missing
field yields 0 percent, and the limit type is weekly exactly when the
seven-day utilization strictly exceeds the five-hour utilization. -/
theorem api_missing_fields_defaults (data : APIUsageData)
    (profileId profileName : String) (localResult : Option ClaudeUsageSnapshot) :
    (fetchUsageViaAPI (.ok data) profileId profileName).isSome = true ∧
    fetchUsage true true (.ok data) localResult profileId profileName =
      some (apiSnapshot data profileId profileName) ∧
    (data.five_hour_utilization = none →
      (apiSnapshot data profileId profileName).sessionPercent = 0) ∧
    (data.seven_day_utilization = none →
      (apiSnapshot data profileId profileName).weeklyPercent = 0) ∧
    ((apiSnapshot data profileId profileName).limitType = .weekly ↔
      data.five_hour_utilization.getD 0 < data.seven_day_utilization.getD 0) := by
  refine ⟨rfl, rfl, fun h5 => ?_, fun h7 => ?_, ?_⟩
  · simp only [apiSnapshot, apiPercent, h5, Option.getD_none]
    norm_num [round_eq]
  · simp only [apiSnapshot, apiPercent, h7, Option.getD_none]
    norm_num [round_eq]
  · by_cases hlt : data.five_hour_utilization.getD 0 < data.seven_day_utilization.getD 0 <;>
      simp [apiSnapshot, hlt]

/-- Witness for C10: a body with both fields missing yields 0 percent on both
windows. -/
theorem api_missing_fields_witness :
    (apiSnapshot ⟨none, none, none, none⟩ "pid" "pname").sessionPercent = 0 ∧
    (apiSnapshot ⟨none, none, none, none⟩ "pid" "pname").weeklyPercent = 0 :=
  ⟨(api_missing_fields_defaults ⟨none, none, none, none⟩ "pid" "pname" none).2.2.1 rfl,
   (api_missing_fields_defaults ⟨none, none, none, none⟩ "pid" "pname" none).2.2.2.1 rfl⟩

end AutoClaude
